import Mathlib

/-!
Shallow embedding of the MRI head-tracking scripts: `motion_tracker.py`
(single-marker, manual reference) and `qr_tracker.py` (dual-marker,
automatic reference).  The two scripts share their tracking core verbatim
(`calculate_displacement`, `update_position_history`, `is_qr_still`,
`is_qr_centered`, the calibration update); they differ only in how the
reference point is acquired.

Modelling choices:
* pixel coordinates, timestamps and the calibration scale are rationals
  (`ℚ`); the source's floats are exact-real idealised;
* Euclidean distances, computed with `math.sqrt` in the source, live in
  `ℝ` via `Real.sqrt` (definitions that branch on such a distance are
  therefore `noncomputable`, using the classical order on `ℝ`);
* the module-level globals of each script are gathered into one explicit
  `TrackerState` record, and each mutating Python function becomes a
  Lean function returning the updated state.
-/

namespace MriTracking

/-- Python `TARGET_WIDTH_INCHES = 1.5`. -/
def TARGET_WIDTH_INCHES : ℚ := 3 / 2

/-- Python `KNOWN_QR_CODE_WIDTH_CM = TARGET_WIDTH_INCHES * 2.54`. -/
def KNOWN_QR_CODE_WIDTH_CM : ℚ := TARGET_WIDTH_INCHES * (254 / 100)

/-- Python `MOVEMENT_THRESHOLD_MM = 2.5`. -/
def MOVEMENT_THRESHOLD_MM : ℚ := 5 / 2

/-- Python `STILL_TIME_THRESHOLD = 1.0`. -/
def STILL_TIME_THRESHOLD : ℚ := 1

/-- Display unit chosen at startup (`measurement_unit` global); display-only,
never used in the internal computations. -/
inductive MUnit
  | mm
  | cm
deriving DecidableEq

/-- The module-level mutable tracking state shared by both scripts:
`center_pixel`, `is_center_set`, `pixels_per_mm`, `measurement_unit`,
`position_history` (a `deque(maxlen=100)` of `(position, timestamp)`
pairs) and `last_movement_time`. -/
structure TrackerState where
  center_pixel : ℚ × ℚ
  is_center_set : Bool
  pixels_per_mm : Option ℚ
  measurement_unit : MUnit
  position_history : List ((ℚ × ℚ) × ℚ)
  last_movement_time : Option ℚ
deriving DecidableEq

/-- Squared Euclidean distance between two pixel points,
`dx**2 + dy**2` in the source. -/
def sqDist (a b : ℚ × ℚ) : ℚ := (a.1 - b.1) ^ 2 + (a.2 - b.2) ^ 2

/-- Python `math.sqrt(dx**2 + dy**2)`: the Euclidean pixel distance. -/
noncomputable def pixelDist (a b : ℚ × ℚ) : ℝ := Real.sqrt ((sqDist a b : ℚ) : ℝ)

/-- Python `calculate_displacement(current_center_pixel)` (identical in both
scripts).  Guard: `if not is_center_set or pixels_per_mm is None or
pixels_per_mm == 0: return 0, 0, 0`; the guard is rendered here as a match on
`pixels_per_mm` with the remaining two tests inside, which branches
identically.  Otherwise it returns
`(pixel_distance / pixels_per_mm, delta_x_pix / pixels_per_mm,
delta_y_pix / pixels_per_mm)`.  Pure: it reads the state and returns a
triple, updating nothing. -/
noncomputable def calculate_displacement (s : TrackerState) (cur : ℚ × ℚ) :
    ℝ × ℚ × ℚ :=
  match s.pixels_per_mm with
  | none => (0, 0, 0)
  | some p =>
    if s.is_center_set = false ∨ p = 0 then (0, 0, 0)
    else
      (pixelDist cur s.center_pixel / (p : ℝ),
       (cur.1 - s.center_pixel.1) / p,
       (cur.2 - s.center_pixel.2) / p)

/-- `position_history.append(x)` on a `deque(maxlen=100)`: when the deque is
full the leftmost element is dropped. -/
def histAppend (h : List ((ℚ × ℚ) × ℚ)) (x : (ℚ × ℚ) × ℚ) :
    List ((ℚ × ℚ) × ℚ) :=
  if 100 ≤ h.length then h.tail ++ [x] else h ++ [x]

/-- The eviction loop
`while position_history and current_time - position_history[0][1] > 3.0:
position_history.popleft()` — pops from the front until the front sample is
at most 3.0 old (or the deque is empty). -/
def evict (now : ℚ) : List ((ℚ × ℚ) × ℚ) → List ((ℚ × ℚ) × ℚ)
  | [] => []
  | p :: rest => if now - p.2 > 3 then evict now rest else p :: rest

/-- Python `recent_positions = [pos for pos, timestamp in position_history
if current_time - timestamp <= 0.5]`. -/
def recentOf (s : TrackerState) (now : ℚ) : List (ℚ × ℚ) :=
  (s.position_history.filter (fun pt => now - pt.2 ≤ 1 / 2)).map Prod.fst

/-- The arithmetic mean `(avg_x, avg_y)` of a list of pixel positions
(`sum(...) / len(...)` per coordinate). -/
def avgOf (l : List (ℚ × ℚ)) : ℚ × ℚ :=
  ((l.map Prod.fst).sum / (l.length : ℚ), (l.map Prod.snd).sum / (l.length : ℚ))

/-- The `last_movement_time` produced by the non-empty-history branch of
`update_position_history`: if `recent_positions` is non-empty, and
`pixels_per_mm` is truthy (`pixels_per_mm and pixels_per_mm > 0`), and the
pixel distance from the current sample to the average of the recent
positions, divided by `pixels_per_mm`, exceeds `MOVEMENT_THRESHOLD_MM`,
then `current_time`; otherwise the previous value. -/
noncomputable def newLMT (s : TrackerState) (cur : ℚ × ℚ) (now : ℚ) : Option ℚ :=
  if (recentOf s now).isEmpty then s.last_movement_time
  else
    match s.pixels_per_mm with
    | none => s.last_movement_time
    | some p =>
      if p ≠ 0 ∧ 0 < p then
        if pixelDist cur (avgOf (recentOf s now)) / (p : ℝ) >
            (MOVEMENT_THRESHOLD_MM : ℝ) then some now
        else s.last_movement_time
      else s.last_movement_time

/-- Python `update_position_history(current_center_pixel, current_time)`
(identical in both scripts).  Empty history: append the sample, set
`last_movement_time = current_time`, return (no eviction).  Otherwise:
possibly refresh `last_movement_time` (see `newLMT`), append the sample,
then run the front-eviction loop. -/
noncomputable def update_position_history (s : TrackerState) (cur : ℚ × ℚ)
    (now : ℚ) : TrackerState :=
  if s.position_history.isEmpty then
    { s with position_history := histAppend s.position_history (cur, now),
             last_movement_time := some now }
  else
    { s with last_movement_time := newLMT s cur now,
             position_history := evict now (histAppend s.position_history (cur, now)) }

/-- Python `is_qr_still(current_time)`: `False` when `last_movement_time` is
`None`, else `(current_time - last_movement_time) >= STILL_TIME_THRESHOLD`. -/
def is_qr_still (s : TrackerState) (now : ℚ) : Bool :=
  match s.last_movement_time with
  | none => false
  | some t => decide (now - t ≥ STILL_TIME_THRESHOLD)

/-- Python `is_qr_centered(total_distance_mm)`:
`total_distance_mm <= MOVEMENT_THRESHOLD_MM`. -/
def is_qr_centered (total_distance_mm : ℝ) : Prop :=
  total_distance_mm ≤ (MOVEMENT_THRESHOLD_MM : ℝ)

/-- Python `convert_to_display_units(mm_value)`: divide by 10 when the
session unit is centimetres; display-only. -/
def convert_to_display_units (u : MUnit) (mm_value : ℚ) : ℚ :=
  match u with
  | MUnit.cm => mm_value / 10
  | MUnit.mm => mm_value

/-- A detected target marker this frame: its pixel center and pixel width
(`np.linalg.norm(points[0] - points[1])`). -/
structure Detection where
  center : ℚ × ℚ
  pixel_width : ℚ

/-- The in-frame calibration update, `if pixel_width > 0: pixels_per_mm =
pixel_width / (KNOWN_QR_CODE_WIDTH_CM * 10)` (identical in both scripts). -/
def update_calibration (s : TrackerState) (pixel_width : ℚ) : TrackerState :=
  if 0 < pixel_width then
    { s with pixels_per_mm := some (pixel_width / (KNOWN_QR_CODE_WIDTH_CM * 10)) }
  else s

/-- The per-frame status record the tracking core hands to the renderer when
the reference is set: the displacement triple and the stillness flag
(centering is `is_qr_centered` of the total, a pure function of it). -/
structure StatusRecord where
  total_dist_mm : ℝ
  dist_x_mm : ℚ
  dist_y_mm : ℚ
  still : Bool

/-- Builds the emitted status record from the post-update state, as the main
loops do after `update_position_history`. -/
noncomputable def mkStatus (s : TrackerState) (cur : ℚ × ℚ) (now : ℚ) :
    StatusRecord :=
  { total_dist_mm := (calculate_displacement s cur).1
    dist_x_mm := (calculate_displacement s cur).2.1
    dist_y_mm := (calculate_displacement s cur).2.2
    still := is_qr_still s now }

/-- The operator key handled inside a frame of `motion_tracker.py`
(besides quit): no key, or `c` (set center). -/
inductive Command
  | noKey
  | setCenter

/-- One frame of `motion_tracker.py`'s main loop (manual mode), minus
rendering: if the target QR is found, update calibration, update the
position history, and (when the center is set) emit a status record; then
handle the key.  `c` with the target visible stores the current center as
reference, sets `last_movement_time = now` and clears the history; `c`
without the target is rejected with a warning (third component `true`) and
changes nothing. -/
noncomputable def manual_frame (s : TrackerState) (det : Option Detection)
    (now : ℚ) (cmd : Command) : TrackerState × Option StatusRecord × Bool :=
  let s1 := match det with
    | none => s
    | some d => update_position_history (update_calibration s d.pixel_width) d.center now
  let out : Option StatusRecord := match det with
    | none => none
    | some d => if s1.is_center_set then some (mkStatus s1 d.center now) else none
  match cmd, det with
  | Command.setCenter, some d =>
      ({ s1 with center_pixel := d.center, is_center_set := true,
                 last_movement_time := some now, position_history := [] }, out, false)
  | Command.setCenter, none => (s1, out, true)
  | Command.noKey, _ => (s1, out, false)

/-- `qr_tracker.py`'s handling of a detected CENTER QR code at pixel position
`c`: `if not is_center_set or (is_center_set and sqrt(...) > 10):` overwrite
the reference, set `last_movement_time = time.time()` (modelled as `now`),
clear the history; otherwise leave the state untouched. -/
noncomputable def handle_center_qr (s : TrackerState) (c : ℚ × ℚ) (now : ℚ) :
    TrackerState :=
  if s.is_center_set = false ∨
      (s.is_center_set = true ∧ pixelDist c s.center_pixel > 10) then
    { s with center_pixel := c, is_center_set := true,
             last_movement_time := some now, position_history := [] }
  else s

/-- One frame of `qr_tracker.py`'s main loop (dual-marker mode), minus
rendering: the center QR (when detected) is handled first, then the target
QR (when detected) drives calibration, history update and status emission.
The source iterates over the detections in detector order; this embedding
fixes the center-before-target order, which is the only order in which both
are acted upon with the claims' frames. -/
noncomputable def dual_frame (s : TrackerState) (cdet : Option (ℚ × ℚ))
    (tdet : Option Detection) (now : ℚ) : TrackerState × Option StatusRecord :=
  let s1 := match cdet with
    | none => s
    | some c => handle_center_qr s c now
  match tdet with
  | none => (s1, none)
  | some d =>
    let s2 := update_position_history (update_calibration s1 d.pixel_width) d.center now
    (s2, if s2.is_center_set then some (mkStatus s2 d.center now) else none)

/-- One dual-mode frame's detector output: the detected center-QR position
(if any), the detected target QR (if any), and the frame time. -/
structure DualFrame where
  cdet : Option (ℚ × ℚ)
  tdet : Option Detection
  time : ℚ

/-- Runs `qr_tracker.py`'s loop over a sequence of frames. -/
noncomputable def run_dual_frames (s : TrackerState) : List DualFrame → TrackerState
  | [] => s
  | f :: rest => run_dual_frames (dual_frame s f.cdet f.tdet f.time).1 rest

/-! ## Helper lemmas -/

lemma sqDist_nonneg (a b : ℚ × ℚ) : 0 ≤ sqDist a b := by
  unfold sqDist; positivity

lemma pixelDist_eq (a b : ℚ × ℚ) (r : ℝ) (hr : 0 ≤ r)
    (h : ((sqDist a b : ℚ) : ℝ) = r ^ 2) : pixelDist a b = r := by
  unfold pixelDist; rw [h, Real.sqrt_sq hr]

@[simp] lemma update_calibration_center_pixel (s : TrackerState) (w : ℚ) :
    (update_calibration s w).center_pixel = s.center_pixel := by
  unfold update_calibration; split <;> rfl

@[simp] lemma update_calibration_is_center_set (s : TrackerState) (w : ℚ) :
    (update_calibration s w).is_center_set = s.is_center_set := by
  unfold update_calibration; split <;> rfl

@[simp] lemma update_position_history_center_pixel (s : TrackerState)
    (cur : ℚ × ℚ) (now : ℚ) :
    (update_position_history s cur now).center_pixel = s.center_pixel := by
  unfold update_position_history; split <;> rfl

@[simp] lemma update_position_history_is_center_set (s : TrackerState)
    (cur : ℚ × ℚ) (now : ℚ) :
    (update_position_history s cur now).is_center_set = s.is_center_set := by
  unfold update_position_history; split <;> rfl

@[simp] lemma update_position_history_pixels_per_mm (s : TrackerState)
    (cur : ℚ × ℚ) (now : ℚ) :
    (update_position_history s cur now).pixels_per_mm = s.pixels_per_mm := by
  unfold update_position_history; split <;> rfl

@[simp] lemma handle_center_qr_pixels_per_mm (s : TrackerState) (c : ℚ × ℚ)
    (now : ℚ) :
    (handle_center_qr s c now).pixels_per_mm = s.pixels_per_mm := by
  unfold handle_center_qr; split <;> rfl

/-! ## Claims -/

/-- C1: `calculate_displacement` returns `(0, 0, 0)` whenever the reference
point is unset, or the calibration scale is unset, or the scale is zero;
otherwise (with the scale positive, as the calibration invariant
guarantees) it returns `(sqrt(dx² + dy²), dx, dy)` with
`dx = (curX - refX) / pixels_per_mm` and `dy = (curY - refY) / pixels_per_mm`.
It is a pure function of the state and the current center (by construction
in this embedding: it returns a triple and updates nothing). -/
theorem calculate_displacement_spec (s : TrackerState) (cur : ℚ × ℚ) :
    ((s.is_center_set = false ∨ s.pixels_per_mm = none ∨ s.pixels_per_mm = some 0) →
        calculate_displacement s cur = (0, 0, 0)) ∧
    (∀ p : ℚ, s.pixels_per_mm = some p → 0 < p → s.is_center_set = true →
        calculate_displacement s cur =
          (Real.sqrt (((((cur.1 - s.center_pixel.1) / p) ^ 2 +
                        ((cur.2 - s.center_pixel.2) / p) ^ 2 : ℚ) : ℝ)),
           (cur.1 - s.center_pixel.1) / p,
           (cur.2 - s.center_pixel.2) / p)) := by
  constructor
  · intro h
    rcases hpp : s.pixels_per_mm with _ | p
    · simp [calculate_displacement, hpp]
    · rcases h with h | h | h
      · simp [calculate_displacement, hpp, h]
      · rw [hpp] at h; exact absurd h (by simp)
      · rw [hpp] at h
        simp only [Option.some_inj] at h
        simp [calculate_displacement, hpp, h]
  · intro p hp hp0 hset
    have hcond : ¬(s.is_center_set = false ∨ p = 0) := by
      push_neg
      exact ⟨by simp [hset], ne_of_gt hp0⟩
    have key : Real.sqrt (((((cur.1 - s.center_pixel.1) / p) ^ 2 +
          ((cur.2 - s.center_pixel.2) / p) ^ 2 : ℚ) : ℝ)) =
        pixelDist cur s.center_pixel / (p : ℝ) := by
      have hq : (((cur.1 - s.center_pixel.1) / p) ^ 2 +
          ((cur.2 - s.center_pixel.2) / p) ^ 2 : ℚ) =
          sqDist cur s.center_pixel / p ^ 2 := by
        unfold sqDist; field_simp
      have h0 : (0 : ℝ) ≤ ((sqDist cur s.center_pixel : ℚ) : ℝ) := by
        exact_mod_cast sqDist_nonneg cur s.center_pixel
      have hcast : ((sqDist cur s.center_pixel / p ^ 2 : ℚ) : ℝ) =
          ((sqDist cur s.center_pixel : ℚ) : ℝ) / ((p : ℝ)) ^ 2 := by
        push_cast; ring
      rw [hq, hcast, Real.sqrt_div h0, Real.sqrt_sq (by positivity)]
      rfl
    rw [key]
    unfold calculate_displacement
    rw [hp]
    exact if_neg hcond

/-- Concrete state for the C1 witness: reference `(0, 0)` set, scale `1`. -/
def s1w : TrackerState :=
  { center_pixel := (0, 0), is_center_set := true, pixels_per_mm := some 1,
    measurement_unit := MUnit.mm, position_history := [], last_movement_time := none }

/-- C1 witness: with reference `(0,0)`, scale `1`, current center `(3,4)`,
the displacement is `(5, 3, 4)`. -/
theorem calculate_displacement_spec_witness :
    calculate_displacement s1w (3, 4) = (5, 3, 4) := by
  have h := (calculate_displacement_spec s1w (3, 4)).2 1 rfl one_pos rfl
  rw [h]
  norm_num [s1w]
  rw [show (25 : ℝ) = 5 ^ 2 by norm_num]
  exact Real.sqrt_sq (by norm_num)

/-- C3: the motion axis reports STILL iff `last_movement_time` is set and
`now - last_movement_time ≥ STILL_TIME_THRESHOLD` (so an unset timestamp
means MOVING), and the alignment axis reports CENTERED iff the total
displacement is at most `MOVEMENT_THRESHOLD_MM`; the thresholds are
1.0 and 2.5. -/
theorem stability_classifier_spec (s : TrackerState) (now : ℚ) (d : ℝ) :
    (is_qr_still s now = true ↔
       ∃ t : ℚ, s.last_movement_time = some t ∧ STILL_TIME_THRESHOLD ≤ now - t) ∧
    (s.last_movement_time = none → is_qr_still s now = false) ∧
    (is_qr_centered d ↔ d ≤ (MOVEMENT_THRESHOLD_MM : ℝ)) ∧
    STILL_TIME_THRESHOLD = 1 ∧ MOVEMENT_THRESHOLD_MM = 5 / 2 := by
  refine ⟨?_, ?_, Iff.rfl, rfl, rfl⟩
  · cases hl : s.last_movement_time with
    | none => simp [is_qr_still, hl]
    | some t => simp [is_qr_still, hl, ge_iff_le]
  · intro h; simp [is_qr_still, h]

/-- C5: for every observed pixel width `w > 0` the calibrator sets
`pixels_per_mm = w / 38.1` exactly (`38.1 = 1.5 × 25.4` mm), a strictly
positive value; `w = 0` leaves the state unchanged, and a frame without the
target marker leaves the calibration scale unchanged in both modes. -/
theorem calibrator_spec (s : TrackerState) (w : ℚ) (now : ℚ) :
    (0 < w →
       (update_calibration s w).pixels_per_mm = some (w / (381 / 10)) ∧
       ∀ p : ℚ, (update_calibration s w).pixels_per_mm = some p → 0 < p) ∧
    (w = 0 → update_calibration s w = s) ∧
    (∀ cmd : Command, (manual_frame s none now cmd).1.pixels_per_mm = s.pixels_per_mm) ∧
    (∀ cdet : Option (ℚ × ℚ),
       (dual_frame s cdet none now).1.pixels_per_mm = s.pixels_per_mm) := by
  refine ⟨?_, ?_, ?_, ?_⟩
  · intro hw
    have heq : KNOWN_QR_CODE_WIDTH_CM * 10 = 381 / 10 := by
      norm_num [KNOWN_QR_CODE_WIDTH_CM, TARGET_WIDTH_INCHES]
    constructor
    · unfold update_calibration
      rw [if_pos hw, heq]
    · intro p hp
      unfold update_calibration at hp
      rw [if_pos hw] at hp
      simp only [Option.some_inj] at hp
      rw [← hp, heq]
      positivity
  · intro hw
    unfold update_calibration
    rw [if_neg (by rw [hw]; exact lt_irrefl 0)]
  · intro cmd; cases cmd <;> rfl
  · intro cdet
    cases cdet with
    | none => rfl
    | some c => simp [dual_frame]

/-- C5 witness: a marker 200 px wide calibrates the scale to
`200 / 38.1 = 2000/381 > 0` (spec Scenario A). -/
theorem calibrator_spec_witness :
    (update_calibration s1w 200).pixels_per_mm = some (200 / (381 / 10)) ∧
    (0 : ℚ) < 200 / (381 / 10) := by
  have h := (calibrator_spec s1w 200 0).1 (by norm_num)
  exact ⟨h.1, h.2 _ h.1⟩

/-- C8: a SetCenter command on a manual-mode frame without a visible target
marker is rejected: the state is returned unchanged (every field), no status
record is emitted, and the warning flag is raised. -/
theorem manual_set_center_rejected (s : TrackerState) (now : ℚ) :
    manual_frame s none now Command.setCenter = (s, none, true) := rfl

/-- C10: a successful SetCenter (target visible) stores the detected center
as the reference point, marks it set, clears the entire position history and
sets `last_movement_time` to the current time — so the target re-enters the
MOVING state with no retained stillness evidence. -/
theorem manual_set_center_success (s : TrackerState) (d : Detection) (now : ℚ) :
    (manual_frame s (some d) now Command.setCenter).1.center_pixel = d.center ∧
    (manual_frame s (some d) now Command.setCenter).1.is_center_set = true ∧
    (manual_frame s (some d) now Command.setCenter).1.position_history = [] ∧
    (manual_frame s (some d) now Command.setCenter).1.last_movement_time = some now :=
  ⟨rfl, rfl, rfl, rfl⟩

lemma mem_evict_append (now : ℚ) (x : (ℚ × ℚ) × ℚ) (hx : ¬now - x.2 > 3) :
    ∀ l : List ((ℚ × ℚ) × ℚ), x ∈ evict now (l ++ [x]) := by
  intro l
  induction l with
  | nil => simp [evict, hx]
  | cons p rest ih =>
      by_cases hp : now - p.2 > 3
      · simpa [evict, hp] using ih
      · simp [evict, hp]

lemma mem_histAppend_evict (now : ℚ) (x : (ℚ × ℚ) × ℚ) (hx : ¬now - x.2 > 3)
    (l : List ((ℚ × ℚ) × ℚ)) : x ∈ evict now (histAppend l x) := by
  unfold histAppend
  split
  · exact mem_evict_append now x hx l.tail
  · exact mem_evict_append now x hx l

/-- C9: on the very first observed sample (empty history) the sample is
recorded and `last_movement_time` is initialised to `now`, with no eviction;
consequently the target is classified MOVING (not still) at every evaluation
time less than a full `STILL_TIME_THRESHOLD` after `now`. -/
theorem first_sample_spec (s : TrackerState) (cur : ℚ × ℚ) (now : ℚ)
    (h : s.position_history = []) :
    update_position_history s cur now =
      { s with position_history := [(cur, now)], last_movement_time := some now } ∧
    ∀ t : ℚ, t - now < STILL_TIME_THRESHOLD →
      is_qr_still (update_position_history s cur now) t = false := by
  have hmain : update_position_history s cur now =
      { s with position_history := [(cur, now)], last_movement_time := some now } := by
    unfold update_position_history
    rw [h]
    simp [histAppend]
  refine ⟨hmain, ?_⟩
  intro t ht
  rw [hmain]
  simpa [is_qr_still] using not_le.mpr ht

/-- Concrete empty-history state for the C9 witness. -/
def s9w : TrackerState :=
  { center_pixel := (0, 0), is_center_set := false, pixels_per_mm := none,
    measurement_unit := MUnit.mm, position_history := [], last_movement_time := none }

/-- C9 witness: the first sample `((1,2), 5)` is recorded with
`last_movement_time = 5`, and at time `5.5` the target is not yet still. -/
theorem first_sample_spec_witness :
    update_position_history s9w (1, 2) 5 =
      { s9w with position_history := [((1, 2), 5)], last_movement_time := some 5 } ∧
    is_qr_still (update_position_history s9w (1, 2) 5) (11 / 2) = false := by
  have h := first_sample_spec s9w (1, 2) 5 rfl
  exact ⟨h.1, h.2 (11 / 2) (by norm_num [STILL_TIME_THRESHOLD])⟩

/-- C2: on a frame with non-empty history, when the calibration scale is a
positive `p` and the 0.5-window `recent` list is non-empty,
`last_movement_time` is set to `now` exactly when the pixel distance from the
current center to the mean of `recent`, divided by `p`, exceeds
`MOVEMENT_THRESHOLD_MM`; when the scale is unset, `last_movement_time` is
left unchanged but the new sample is still appended to the history. -/
theorem movement_hysteresis_spec (s : TrackerState) (cur : ℚ × ℚ) (now : ℚ)
    (h : s.position_history ≠ []) :
    (∀ p : ℚ, s.pixels_per_mm = some p → 0 < p →
       (recentOf s now).isEmpty = false →
       (update_position_history s cur now).last_movement_time =
         (if pixelDist cur (avgOf (recentOf s now)) / (p : ℝ) >
             (MOVEMENT_THRESHOLD_MM : ℝ) then some now
          else s.last_movement_time)) ∧
    (s.pixels_per_mm = none →
       (update_position_history s cur now).last_movement_time =
         s.last_movement_time ∧
       (cur, now) ∈ (update_position_history s cur now).position_history) := by
  have hne : s.position_history.isEmpty = false := by
    cases hl : s.position_history with
    | nil => exact absurd hl h
    | cons a l => rfl
  have hupd : update_position_history s cur now =
      { s with last_movement_time := newLMT s cur now,
               position_history := evict now (histAppend s.position_history (cur, now)) } := by
    unfold update_position_history
    rw [if_neg (by rw [hne]; simp)]
  constructor
  · intro p hp hp0 hrec
    rw [hupd]
    show newLMT s cur now = _
    unfold newLMT
    rw [hrec, hp]
    have hcond : p ≠ 0 ∧ 0 < p := ⟨ne_of_gt hp0, hp0⟩
    simp [hcond]
  · intro hp
    rw [hupd]
    constructor
    · show newLMT s cur now = s.last_movement_time
      unfold newLMT
      rw [hp]
      split <;> rfl
    · show (cur, now) ∈ evict now (histAppend s.position_history (cur, now))
      exact mem_histAppend_evict now (cur, now) (by simp) s.position_history

/-- Concrete state for the C2 witness: one old sample at the origin,
scale `1`, previous movement time `-1`. -/
def s2w : TrackerState :=
  { center_pixel := (0, 0), is_center_set := true, pixels_per_mm := some 1,
    measurement_unit := MUnit.mm, position_history := [((0, 0), 0)],
    last_movement_time := some (-1) }

/-- C2 witness: the current center `(3,4)` is 5 px from the mean of the
recent samples (the origin); `5 / 1 > 2.5` so `last_movement_time` becomes
`now = 0`. -/
theorem movement_hysteresis_spec_witness :
    (update_position_history s2w (3, 4) 0).last_movement_time = some 0 := by
  have havg : avgOf (recentOf s2w 0) = (0, 0) := by
    norm_num [avgOf, recentOf, s2w]
  have hpd : pixelDist (3, 4) (avgOf (recentOf s2w 0)) = 5 := by
    rw [havg]
    exact pixelDist_eq _ _ 5 (by norm_num) (by norm_num [sqDist])
  have h := (movement_hysteresis_spec s2w (3, 4) 0 (by simp [s2w])).1 1 rfl
    one_pos (by norm_num [recentOf, s2w, List.filter])
  rw [h, if_pos]
  rw [hpd]
  norm_num [MOVEMENT_THRESHOLD_MM]

lemma run_dual_frames_ref_stable (frames : List DualFrame) :
    ∀ s : TrackerState, s.is_center_set = true →
    (∀ f ∈ frames, ∀ c : ℚ × ℚ, f.cdet = some c →
       pixelDist c s.center_pixel ≤ 10) →
    (run_dual_frames s frames).center_pixel = s.center_pixel ∧
    (run_dual_frames s frames).is_center_set = true := by
  induction frames with
  | nil => intro s hset _; exact ⟨rfl, hset⟩
  | cons f rest ih =>
      intro s hset hobs
      have hs1 : (match f.cdet with
          | none => s
          | some c => handle_center_qr s c f.time) = s := by
        cases hc : f.cdet with
        | none => rfl
        | some c =>
            show handle_center_qr s c f.time = s
            have hle : pixelDist c s.center_pixel ≤ 10 :=
              hobs f (by simp) c hc
            have hncond : ¬(s.is_center_set = false ∨
                (s.is_center_set = true ∧ pixelDist c s.center_pixel > 10)) := by
              push_neg
              exact ⟨by simp [hset], fun _ => hle⟩
            unfold handle_center_qr
            rw [if_neg hncond]
      have hstep : (dual_frame s f.cdet f.tdet f.time).1.center_pixel = s.center_pixel ∧
          (dual_frame s f.cdet f.tdet f.time).1.is_center_set = true := by
        cases ht : f.tdet with
        | none => simp [dual_frame, ht, hs1, hset]
        | some d => simp [dual_frame, ht, hs1, hset]
      have hrest := ih (dual_frame s f.cdet f.tdet f.time).1 hstep.2
        (by intro g hg c hgc
            rw [hstep.1]
            exact hobs g (by simp [hg]) c hgc)
      rw [run_dual_frames]
      exact ⟨by rw [hrest.1, hstep.1], hrest.2⟩

/-- C4: in dual-marker mode, with a stored reference and any sequence of
frames whose detected center-marker positions all lie within 10 px of it,
the reference never changes (at any prefix of the run); and a single
center-marker observation more than 10 px away — or one arriving with the
reference unset — overwrites the reference with the observed position,
clears the position history and resets `last_movement_time` to `now`. -/
theorem dual_reference_acquisition_spec (s : TrackerState)
    (frames : List DualFrame) (c : ℚ × ℚ) (now : ℚ) :
    (s.is_center_set = true →
     (∀ f ∈ frames, ∀ cc : ℚ × ℚ, f.cdet = some cc →
        pixelDist cc s.center_pixel ≤ 10) →
     ∀ k : ℕ, (run_dual_frames s (frames.take k)).center_pixel = s.center_pixel) ∧
    ((s.is_center_set = false ∨ pixelDist c s.center_pixel > 10) →
     handle_center_qr s c now =
       { s with center_pixel := c, is_center_set := true,
                position_history := [], last_movement_time := some now }) := by
  constructor
  · intro hset hobs k
    exact (run_dual_frames_ref_stable (frames.take k) s hset
      (fun f hf cc hcc => hobs f (List.take_subset k frames hf) cc hcc)).1
  · intro hd
    have hcond : s.is_center_set = false ∨
        (s.is_center_set = true ∧ pixelDist c s.center_pixel > 10) := by
      rcases hd with hd | hd
      · exact Or.inl hd
      · cases hb : s.is_center_set with
        | false => exact Or.inl rfl
        | true => exact Or.inr ⟨rfl, hd⟩
    unfold handle_center_qr
    rw [if_pos hcond]

/-- Concrete state for the C4 witness: reference set at the origin. -/
def s4w : TrackerState :=
  { center_pixel := (0, 0), is_center_set := true, pixels_per_mm := none,
    measurement_unit := MUnit.mm, position_history := [((0, 0), 0)],
    last_movement_time := some 0 }

/-- Two dual-mode frames: a center observation 5 px from the reference,
then a frame with no detections. -/
def frames4 : List DualFrame :=
  [{ cdet := some (3, 4), tdet := none, time := 1 },
   { cdet := none, tdet := none, time := 2 }]

/-- C4 witness: the 5 px-jitter observation leaves the reference at the
origin over both frames, while a center observation at `(30, 40)` (50 px
away) overwrites it and resets history and movement timestamp. -/
theorem dual_reference_acquisition_spec_witness :
    (run_dual_frames s4w (frames4.take 2)).center_pixel = s4w.center_pixel ∧
    handle_center_qr s4w (30, 40) 7 =
      { s4w with center_pixel := (30, 40), is_center_set := true,
                 position_history := [], last_movement_time := some 7 } := by
  have h := dual_reference_acquisition_spec s4w frames4 (30, 40) 7
  constructor
  · apply h.1 rfl ?_ 2
    intro f hf cc hcc
    simp only [frames4, List.mem_cons, List.not_mem_nil, or_false] at hf
    rcases hf with rfl | rfl
    · simp only [Option.some_inj] at hcc
      subst hcc
      rw [pixelDist_eq (3, 4) s4w.center_pixel 5 (by norm_num)
        (by norm_num [sqDist, s4w])]
      norm_num
    · exact absurd hcc (by simp)
  · apply h.2
    refine Or.inr ?_
    rw [pixelDist_eq (30, 40) s4w.center_pixel 50 (by norm_num)
      (by norm_num [sqDist, s4w])]
    norm_num

lemma evict_age (now : ℚ) :
    ∀ L : List ((ℚ × ℚ) × ℚ), List.Pairwise (fun a b => a.2 ≤ b.2) L →
    ∀ x ∈ evict now L, now - x.2 ≤ 3 := by
  intro L
  induction L with
  | nil => intro _ x hx; simp [evict] at hx
  | cons p rest ih =>
      intro hp x hx
      cases hp with
      | cons hhead htail =>
          rw [evict] at hx
          by_cases hold : now - p.2 > 3
          · rw [if_pos hold] at hx
            exact ih htail x hx
          · rw [if_neg hold] at hx
            rcases List.mem_cons.mp hx with rfl | hx
            · exact not_lt.mp hold
            · have := hhead x hx
              have h3 : now - p.2 ≤ 3 := not_lt.mp hold
              linarith

lemma pairwise_histAppend (l : List ((ℚ × ℚ) × ℚ)) (x : (ℚ × ℚ) × ℚ)
    (hl : List.Pairwise (fun a b => a.2 ≤ b.2) l)
    (hx : ∀ a ∈ l, a.2 ≤ x.2) :
    List.Pairwise (fun a b => a.2 ≤ b.2) (histAppend l x) := by
  unfold histAppend
  split
  · refine List.pairwise_append.mpr ⟨hl.sublist (List.tail_sublist l),
      List.pairwise_singleton _ _, ?_⟩
    intro a ha b hb
    rw [List.mem_singleton.mp hb]
    exact hx a (List.mem_of_mem_tail ha)
  · refine List.pairwise_append.mpr ⟨hl, List.pairwise_singleton _ _, ?_⟩
    intro a ha b hb
    rw [List.mem_singleton.mp hb]
    exact hx a ha

/-- C6 (amended): after an update at time `now`, every sample remaining in
the position history satisfies `now - timestamp ≤ 3.0`, PROVIDED the stored
timestamps are nondecreasing and do not exceed `now` — the order the frame
loop's monotonic clock maintains.  For arbitrary unordered timestamps the
property fails (see the counterexample): the eviction loop only pops from
the front until the first young sample. -/
theorem history_retention_sorted (s : TrackerState) (cur : ℚ × ℚ) (now : ℚ)
    (hsort : List.Pairwise (fun a b => a.2 ≤ b.2) s.position_history)
    (hnow : ∀ a ∈ s.position_history, a.2 ≤ now) :
    ∀ x ∈ (update_position_history s cur now).position_history,
      now - x.2 ≤ 3 := by
  unfold update_position_history
  split
  · intro x hx
    rcases hl : s.position_history with _ | ⟨a, l⟩
    · rw [hl] at hx
      simp [histAppend] at hx
      rw [hx]
      norm_num
    · rename_i hemp
      rw [hl] at hemp
      simp at hemp
  · intro x hx
    exact evict_age now _ (pairwise_histAppend s.position_history (cur, now)
      hsort (by intro a ha; exact hnow a ha)) x hx

/-- Concrete sorted-history state for the C6 witness. -/
def s6w : TrackerState :=
  { center_pixel := (0, 0), is_center_set := false, pixels_per_mm := none,
    measurement_unit := MUnit.mm,
    position_history := [((0, 0), 1), ((1, 1), 2)], last_movement_time := none }

/-- C6 witness: with the sorted two-sample history and an update at time 4,
the retained sample `((0,0), 1)` is at most 3.0 old. -/
theorem history_retention_sorted_witness : (4 : ℚ) - 1 ≤ 3 := by
  have hlist : (update_position_history s6w (2, 2) 4).position_history =
      [((0, 0), 1), ((1, 1), 2), ((2, 2), 4)] := by
    norm_num [update_position_history, s6w, histAppend, evict]
  exact history_retention_sorted s6w (2, 2) 4
    (by norm_num [s6w, List.pairwise_cons])
    (by norm_num [s6w, List.forall_mem_cons])
    ((0, 0), 1) (by rw [hlist]; simp)

/-- Unordered-history state refuting C6 as stated: a fresh sample sits in
front of a 10-time-unit-old one. -/
def s6x : TrackerState :=
  { center_pixel := (0, 0), is_center_set := false, pixels_per_mm := none,
    measurement_unit := MUnit.mm,
    position_history := [((0, 0), 10), ((0, 0), 0)], last_movement_time := none }

/-- C6 counterexample: with the unordered history `[ts 10, ts 0]`, after the
update at `now = 10` the sample with timestamp 0 is still in the history even
though it is 10 > 3.0 time-units old — the claim's "for any sequence of
timestamps (not assumed ordered)" fails on the code. -/
theorem history_retention_unordered_cex :
    ((0, 0), 0) ∈ (update_position_history s6x (0, 0) 10).position_history ∧
    ¬((10 : ℚ) - 0 ≤ 3) := by
  have hlist : (update_position_history s6x (0, 0) 10).position_history =
      [((0, 0), 10), ((0, 0), 0), ((0, 0), 10)] := by
    norm_num [update_position_history, s6x, histAppend, evict]
  constructor
  · rw [hlist]; simp
  · norm_num

/-- C7 (amended): a manual-mode frame without the target marker leaves the
whole state unchanged and emits no status record, for any operator command;
a dual-mode frame without the target marker emits no status record and
leaves the calibration scale unchanged, and leaves the whole state unchanged
provided the center marker is also not detected.  (A detected center marker
may still overwrite the reference and clear the history even when the
target is absent — see the counterexample.) -/
theorem no_target_frame_spec (s : TrackerState) (now : ℚ) :
    (∀ cmd : Command,
       (manual_frame s none now cmd).1 = s ∧
       (manual_frame s none now cmd).2.1 = none) ∧
    dual_frame s none none now = (s, none) ∧
    (∀ cdet : Option (ℚ × ℚ),
       (dual_frame s cdet none now).1.pixels_per_mm = s.pixels_per_mm ∧
       (dual_frame s cdet none now).2 = none) := by
  refine ⟨?_, rfl, ?_⟩
  · intro cmd; cases cmd <;> exact ⟨rfl, rfl⟩
  · intro cdet
    cases cdet with
    | none => exact ⟨rfl, rfl⟩
    | some c => exact ⟨by simp [dual_frame], rfl⟩

/-- Dual-mode state refuting C7 as stated: reference set at the origin with
one recorded sample. -/
def s7x : TrackerState :=
  { center_pixel := (0, 0), is_center_set := true, pixels_per_mm := some 1,
    measurement_unit := MUnit.mm, position_history := [((0, 0), 0)],
    last_movement_time := some 0 }

/-- C7 counterexample: a dual-mode frame with NO target marker but a center
marker observed 50 px from the stored reference moves the reference point
and clears the position history, contradicting the claim that the reference
and history are unchanged on every target-less frame. -/
theorem no_target_frame_dual_cex :
    (dual_frame s7x (some (30, 40)) none 0).1.center_pixel ≠ s7x.center_pixel ∧
    (dual_frame s7x (some (30, 40)) none 0).1.position_history ≠
      s7x.position_history := by
  have hcond : s7x.is_center_set = false ∨
      (s7x.is_center_set = true ∧ pixelDist (30, 40) s7x.center_pixel > 10) := by
    refine Or.inr ⟨rfl, ?_⟩
    rw [pixelDist_eq (30, 40) s7x.center_pixel 50 (by norm_num)
      (by norm_num [sqDist, s7x])]
    norm_num
  have hstate : (dual_frame s7x (some (30, 40)) none 0).1 =
      { s7x with center_pixel := (30, 40), is_center_set := true,
                 last_movement_time := some 0, position_history := [] } := by
    show handle_center_qr s7x (30, 40) 0 = _
    unfold handle_center_qr
    rw [if_pos hcond]
  rw [hstate]
  constructor <;> simp [s7x]

end MriTracking
